import Mathlib

/-!
# Verification of `upload_np.py` (face_neutronprobe_hiev)

Shallow embedding of the EucFACE neutron-probe upload pipeline
(`src/upload_np.py`) and proofs about its file-lifecycle behaviour.

Python string primitives used by the script (`str.split`, `str.replace`,
`str.startswith`, slicing) are translated to executable Lean functions on
`List Char`.  The filesystem (the `Data`, `Renamed` and `Backups`
directories) is modelled as association lists from filename to an abstract
byte content (a `Nat`); external effects — the R-script converter, the two
HIEv uploads, and the three `os.remove` calls — are driven by an
environment of success/failure flags, since they are opaque collaborators
of the script.  Unhandled Python exceptions (the `IndexError` in the
candidate match, `OSError` from `os.remove`) are modelled by an `abort`
field that stops the per-run iteration.
-/

namespace UploadNP

/-! ## Python string primitives -/

/-- Python `s[a:b]` slicing on a character list: characters at indices
`[a, b)`, truncated (never failing) when the list is short. -/
def pySliceL (s : List Char) (a b : Nat) : List Char :=
  (s.drop a).take (b - a)

/-- Python `s.startswith(p)` on character lists. -/
def hasPrefixL : List Char → List Char → Bool
  | [], _ => true
  | _ :: _, [] => false
  | p :: ps, x :: xs => p = x && hasPrefixL ps xs

/-- Python `s.split(sep)` for a single-character separator: splits at every
occurrence, keeping empty pieces (so the result is always non-empty). -/
def splitOnChar (c : Char) : List Char → List (List Char)
  | [] => [[]]
  | x :: xs =>
    let r := splitOnChar c xs
    if x = c then [] :: r
    else
      match r with
      | [] => [[x]]
      | h :: t => (x :: h) :: t

/-- Helper for `pyReplaceL`: the fuel (at least the input length) makes the
recursion structural, so the kernel can evaluate it. -/
def pyReplaceAux (old new : List Char) : Nat → List Char → List Char
  | 0, s => s
  | _, [] => []
  | fuel + 1, x :: xs =>
    if old.isPrefixOf (x :: xs) ∧ old ≠ [] then
      new ++ pyReplaceAux old new fuel (xs.drop (old.length - 1))
    else
      x :: pyReplaceAux old new fuel xs

/-- Python `s.replace(old, new)` for a non-empty pattern: replaces all
non-overlapping occurrences left to right. -/
def pyReplaceL (old new s : List Char) : List Char :=
  pyReplaceAux old new s.length s

/-! ## Filename codec (`rename_file`, `rename_csv_file`, `get_datetimes`)

Each function is translated from the script; the `…L` core works on
character lists, and the `String` wrapper keeps the source's name. -/

/-- Core of `rename_file`: day/month/year are the two-character slices of
the raw name at offsets 2, 4 and 6, the year prefixed by `20`; the result
is `'FACE_AUTO_RA_NEUTRON_R_' + year + month + day + '.txt'`. -/
def renameFileL (s : List Char) : List Char :=
  let day := pySliceL s 2 4
  let month := pySliceL s 4 6
  let year := "20".toList ++ pySliceL s 6 8
  "FACE_AUTO_RA_NEUTRON_R_".toList ++ year ++ month ++ day ++ ".txt".toList

/-- `rename_file(infile)` from the script (line 74). -/
def rename_file (infile : String) : String :=
  (renameFileL infile.toList).asString

/-- Core of `rename_csv_file`: `infile.replace("_R_", "_L1_").replace(".txt", ".csv")`. -/
def renameCsvFileL (s : List Char) : List Char :=
  pyReplaceL ".txt".toList ".csv".toList (pyReplaceL "_R_".toList "_L1_".toList s)

/-- `rename_csv_file(infile)` from the script (line 87). -/
def rename_csv_file (infile : String) : String :=
  (renameCsvFileL infile.toList).asString

/-- Core of `get_datetimes`: start `year-month-day 00:00:00`, end
`year-month-day 23:59:59`, from the same positional slices as `rename_file`. -/
def getDatetimesL (s : List Char) : List Char × List Char :=
  let day := pySliceL s 2 4
  let month := pySliceL s 4 6
  let year := "20".toList ++ pySliceL s 6 8
  (year ++ "-".toList ++ month ++ "-".toList ++ day ++ " 00:00:00".toList,
   year ++ "-".toList ++ month ++ "-".toList ++ day ++ " 23:59:59".toList)

/-- `get_datetimes(infile)` from the script (line 99). -/
def get_datetimes (infile : String) : String × String :=
  ((getDatetimesL infile.toList).1.asString, (getDatetimesL infile.toList).2.asString)

/-! ## Candidate match (line 127)

`file.startswith('FA') and file.split('.')[1] == 'TXT'`.  Python's `and`
short-circuits, so the indexing `[1]` is evaluated only for names starting
with `FA`; when the split yields fewer than two pieces it raises an
`IndexError`, modelled as `.error`. -/

deriving instance DecidableEq for Except

/-- The candidate test of the orchestrator loop, with its `IndexError`
failure mode made explicit. -/
def candidateMatchL (s : List Char) : Except String Bool :=
  if hasPrefixL "FA".toList s then
    match (splitOnChar '.' s).get? 1 with
    | some ext => .ok (ext = "TXT".toList)
    | none => .error "IndexError"
  else
    .ok false

/-- Candidate test on a `String` filename. -/
def candidateMatch (f : String) : Except String Bool :=
  candidateMatchL f.toList

/-- The spec's input filename convention, from its words: `FA` + 2-digit
day + 2-digit month + 2-digit year + `.TXT` (case-sensitive). -/
def specConvention (s : String) : Bool :=
  match s.toList with
  | ['F', 'A', d1, d2, m1, m2, y1, y2, '.', 'T', 'X', 'T'] =>
    d1.isDigit && d2.isDigit && m1.isDigit && m2.isDigit && y1.isDigit && y2.isDigit
  | _ => false

/-- Modelled from the spec: the idealized `deriveCanonicalName` of §4.1,
which fails (`none` = InvalidFormat) when the raw name does not start with
the required 2-character prefix or lacks the 8 characters needed for the
positional date substrings, and otherwise returns the canonical name.
Stated only to compare the spec's claimed failure behaviour with the
script's total `rename_file`. -/
def deriveCanonicalNameSpec (s : String) : Option String :=
  if hasPrefixL "FA".toList s.toList ∧ 8 ≤ s.toList.length then
    some (rename_file s)
  else
    none

/-! ## Filesystem and environment model -/

/-- A directory: an association list from filename to abstract byte
content.  `Data`, `Renamed` and `Backups` are each one of these. -/
abbrev Dir := List (String × Nat)

/-- Lookup a file's content (`os.path.exists` is `(getF d k).isSome`). -/
def getF : Dir → String → Option Nat
  | [], _ => none
  | (k', v) :: rest, k => if k = k' then some v else getF rest k

/-- Write a file (`shutil.copyfile` destination): overwrites any existing
entry under the same name. -/
def setF (d : Dir) (k : String) (v : Nat) : Dir :=
  (k, v) :: d.filter (fun p => p.1 ≠ k)

/-- Delete a file (`os.remove`). -/
def delF (d : Dir) (k : String) : Dir :=
  d.filter (fun p => p.1 ≠ k)

/-- The three directories the script mediates. -/
structure FS where
  data : Dir
  renamed : Dir
  backups : Dir
deriving DecidableEq, Repr

/-- Per-file behaviour of the opaque external collaborators: whether the
R-script conversion succeeds (and the content it then leaves at the `.csv`
path), whether each `hp.upload` call succeeds, and whether each
`os.remove` call succeeds. -/
structure Env where
  convertOk : Bool
  convertedContent : Nat
  uploadRawOk : Bool
  uploadL1Ok : Bool
  removeDataOk : Bool
  removeRenamedOk : Bool
  removeL1Ok : Bool
deriving DecidableEq, Repr

/-- Log events, mirroring the script's `log.write` lines. -/
inductive Event where
  | nonMatchWarn (f : String)
  | matchFound (f : String)
  | backedUp (f : String)
  | alreadyInRenamed (renamed : String)
  | stagedEv (f renamed : String)
  | l1AlreadyExists (l1 : String)
  | convertedEv (f : String)
  | convertFailed (f : String)
  | uploadOkRaw (renamed : String)
  | uploadOkL1 (l1 : String)
  | uploadFailedEv (f : String)
  | cleanedEv (f : String)
deriving DecidableEq, Repr

/-- Result of one loop iteration: the filesystem after it, the `hp.upload`
calls it made (upload paths, in call order), whether `file_counter` was
incremented, the log events, and — when an exception escaped the iteration
— the unhandled error that aborts the whole run. -/
structure StepOut where
  fs : FS
  uploads : List String
  counted : Bool
  events : List Event
  abort : Option String
deriving DecidableEq, Repr

/-! ## One iteration of the orchestrator loop (lines 126-189)

Per candidate: backup (unconditional), stage with skip-if-exists, copy the
staged bytes to the `.csv` path then convert (failure logged, `continue`),
upload raw then L1 (failure logged, `continue`), then three unguarded
`os.remove` calls and the counter increment. -/

/-- One iteration of `for file in os.listdir(data_dir)`. -/
def processFile (env : Env) (fs : FS) (f : String) : StepOut :=
  match candidateMatch f with
  | .error e =>
    -- the IndexError from `file.split('.')[1]` is unhandled
    { fs := fs, uploads := [], counted := false, events := [], abort := some e }
  | .ok false =>
    { fs := fs, uploads := [], counted := false,
      events := [.nonMatchWarn f], abort := none }
  | .ok true =>
    match getF fs.data f with
    | none =>
      -- `shutil.copyfile` on a vanished source raises, unhandled
      { fs := fs, uploads := [], counted := false,
        events := [.matchFound f], abort := some "FileNotFoundError" }
    | some content =>
      -- 1. backup copy, made before any staging and with no guard
      let fs1 : FS := { fs with backups := setF fs.backups f content }
      let rn := rename_file f
      -- 2. stage: skip-if-exists on the canonical name
      if (getF fs1.renamed rn).isSome then
        { fs := fs1, uploads := [], counted := false,
          events := [.matchFound f, .backedUp f, .alreadyInRenamed rn],
          abort := none }
      else
        let fs2 : FS := { fs1 with renamed := setF fs1.renamed rn content }
        let l1 := rename_csv_file rn
        -- 3. convert: skip-if-exists on the derived name, then copy the
        -- staged bytes to the `.csv` path and run the converter on it
        if (getF fs2.renamed l1).isSome then
          { fs := fs2, uploads := [], counted := false,
            events := [.matchFound f, .backedUp f, .stagedEv f rn,
                       .l1AlreadyExists l1],
            abort := none }
        else
          let fs3 : FS := { fs2 with renamed := setF fs2.renamed l1 content }
          if env.convertOk then
            let fs4 : FS := { fs3 with renamed := setF fs3.renamed l1 env.convertedContent }
            -- 4. upload raw, then L1; one except-block for both
            if env.uploadRawOk then
              if env.uploadL1Ok then
                -- 5. three os.remove calls, not wrapped in try/except
                if env.removeDataOk then
                  let fs5 : FS := { fs4 with data := delF fs4.data f }
                  if env.removeRenamedOk then
                    let fs6 : FS := { fs5 with renamed := delF fs5.renamed rn }
                    if env.removeL1Ok then
                      let fs7 : FS := { fs6 with renamed := delF fs6.renamed l1 }
                      { fs := fs7, uploads := [rn, l1], counted := true,
                        events := [.matchFound f, .backedUp f, .stagedEv f rn,
                                   .convertedEv f, .uploadOkRaw rn,
                                   .uploadOkL1 l1, .cleanedEv f],
                        abort := none }
                    else
                      { fs := fs6, uploads := [rn, l1], counted := false,
                        events := [.matchFound f, .backedUp f, .stagedEv f rn,
                                   .convertedEv f, .uploadOkRaw rn, .uploadOkL1 l1],
                        abort := some "OSError" }
                  else
                    { fs := fs5, uploads := [rn, l1], counted := false,
                      events := [.matchFound f, .backedUp f, .stagedEv f rn,
                                 .convertedEv f, .uploadOkRaw rn, .uploadOkL1 l1],
                      abort := some "OSError" }
                else
                  { fs := fs4, uploads := [rn, l1], counted := false,
                    events := [.matchFound f, .backedUp f, .stagedEv f rn,
                               .convertedEv f, .uploadOkRaw rn, .uploadOkL1 l1],
                    abort := some "OSError" }
              else
                { fs := fs4, uploads := [rn, l1], counted := false,
                  events := [.matchFound f, .backedUp f, .stagedEv f rn,
                             .convertedEv f, .uploadOkRaw rn, .uploadFailedEv f],
                  abort := none }
            else
              { fs := fs4, uploads := [rn], counted := false,
                events := [.matchFound f, .backedUp f, .stagedEv f rn,
                           .convertedEv f, .uploadFailedEv f],
                abort := none }
          else
            { fs := fs3, uploads := [], counted := false,
              events := [.matchFound f, .backedUp f, .stagedEv f rn,
                         .convertFailed f],
              abort := none }

/-- Result of a whole run. -/
structure RunOut where
  fs : FS
  uploads : List String
  counter : Nat
  events : List Event
  abort : Option String
deriving DecidableEq, Repr

/-- Fold `processFile` over a list of filenames; an unhandled exception
aborts the run, leaving the remaining files unprocessed. -/
def runFiles (E : String → Env) (fs : FS) : List String → RunOut
  | [] => { fs := fs, uploads := [], counter := 0, events := [], abort := none }
  | f :: rest =>
    let r := processFile (E f) fs f
    match r.abort with
    | some e =>
      { fs := r.fs, uploads := r.uploads,
        counter := if r.counted then 1 else 0,
        events := r.events, abort := some e }
    | none =>
      let rr := runFiles E r.fs rest
      { fs := rr.fs, uploads := r.uploads ++ rr.uploads,
        counter := (if r.counted then 1 else 0) + rr.counter,
        events := r.events ++ rr.events, abort := rr.abort }

/-- A whole run: iterate over the snapshot listing of the `Data` folder. -/
def runPipeline (E : String → Env) (fs : FS) : RunOut :=
  runFiles E fs (fs.data.map Prod.fst)

/-- A sample environment in which every external call succeeds. -/
def envAllOk : Env :=
  { convertOk := true, convertedContent := 9, uploadRawOk := true, uploadL1Ok := true,
    removeDataOk := true, removeRenamedOk := true, removeL1Ok := true }

/-! ## Directory lemmas -/

theorem getF_filter_ne (d : Dir) (k k' : String) (h : k' ≠ k) :
    getF (d.filter (fun p => p.1 ≠ k)) k' = getF d k' := by
  simp only [ne_eq, decide_not]
  induction d with
  | nil => rfl
  | cons a rest ih =>
    obtain ⟨ka, va⟩ := a
    by_cases hk : ka = k
    · subst hk
      simp [List.filter_cons, getF, h, ih]
    · simp [List.filter_cons, getF, hk, ih]

theorem getF_setF_self (d : Dir) (k : String) (v : Nat) :
    getF (setF d k v) k = some v := by
  simp [setF, getF]

theorem getF_setF_ne (d : Dir) (k : String) (v : Nat) (k' : String) (h : k' ≠ k) :
    getF (setF d k v) k' = getF d k' := by
  unfold setF
  rw [getF, if_neg h]
  exact getF_filter_ne d k k' h

theorem getF_delF_self (d : Dir) (k : String) : getF (delF d k) k = none := by
  unfold delF
  simp only [ne_eq, decide_not]
  induction d with
  | nil => rfl
  | cons a rest ih =>
    obtain ⟨ka, va⟩ := a
    by_cases hk : ka = k
    · subst hk
      simp [List.filter_cons, ih]
    · simp [List.filter_cons, getF, hk, ih, Ne.symm hk]

theorem getF_delF_ne (d : Dir) (k k' : String) (h : k' ≠ k) :
    getF (delF d k) k' = getF d k' :=
  getF_filter_ne d k k' h

theorem getF_setF_isSome (d : Dir) (k : String) (v : Nat) (k' : String)
    (h : (getF d k').isSome) : (getF (setF d k v) k').isSome := by
  by_cases hk : k' = k
  · subst hk; simp [getF_setF_self]
  · rw [getF_setF_ne _ _ _ _ hk]; exact h

/-! ## Codec lemmas -/

/-- Slicing an appended list at the boundary of a known-length prefix
extracts the middle block. -/
theorem pySliceL_mid (pre x rest : List Char) (n k : Nat)
    (hpre : pre.length = n) (hx : x.length = k) :
    pySliceL (pre ++ (x ++ rest)) n (n + k) = x := by
  subst hpre
  subst hx
  unfold pySliceL
  rw [Nat.add_sub_cancel_left, List.drop_left, List.take_left]

/-- `c.isDigit` rules out the separator characters of the conventions. -/
theorem digit_ne_dot {c : Char} (h : c.isDigit = true) : ¬(c = '.') := by
  intro he
  subst he
  exact absurd h (by decide)

/-- A list without the separator splits into a single piece. -/
theorem splitOnChar_eq_single {c : Char} :
    ∀ {l : List Char}, (∀ x ∈ l, x ≠ c) → splitOnChar c l = [l] := by
  intro l
  induction l with
  | nil => simp [splitOnChar]
  | cons x xs ih =>
    intro h
    have hx : ¬(x = c) := h x (by simp)
    have ih' : splitOnChar c xs = [xs] := ih (fun y hy => h y (by simp [hy]))
    simp [splitOnChar, hx, ih']

/-- Positional slices of a name decomposed into a 2-char prefix, 2-char
day, month and year blocks and a remainder: offsets 2, 4 and 6 pick out
day, month and year respectively. -/
theorem slices_of_parts (p d m y r : List Char)
    (hp : p.length = 2) (hd : d.length = 2) (hm : m.length = 2) (hy : y.length = 2) :
    pySliceL (p ++ (d ++ (m ++ (y ++ r)))) 2 4 = d ∧
    pySliceL (p ++ (d ++ (m ++ (y ++ r)))) 4 6 = m ∧
    pySliceL (p ++ (d ++ (m ++ (y ++ r)))) 6 8 = y := by
  refine ⟨?_, ?_, ?_⟩
  · exact pySliceL_mid p d _ 2 2 hp hd
  · have e : p ++ (d ++ (m ++ (y ++ r))) = (p ++ d) ++ (m ++ (y ++ r)) := by
      simp [List.append_assoc]
    rw [e]
    exact pySliceL_mid (p ++ d) m _ 4 2 (by simp [hp, hd]) hm
  · have e : p ++ (d ++ (m ++ (y ++ r))) = ((p ++ d) ++ m) ++ (y ++ r) := by
      simp [List.append_assoc]
    rw [e]
    exact pySliceL_mid ((p ++ d) ++ m) y _ 6 2 (by simp [hp, hd, hm]) hy

/-- `rename_file` on a decomposed name: whatever the 2-char prefix is, the
result swaps day/month/year into `..._R_20YYMMDD.txt` form. -/
theorem renameFileL_parts (p d m y r : List Char)
    (hp : p.length = 2) (hd : d.length = 2) (hm : m.length = 2) (hy : y.length = 2) :
    renameFileL (p ++ (d ++ (m ++ (y ++ r)))) =
      "FACE_AUTO_RA_NEUTRON_R_20".toList ++ y ++ m ++ d ++ ".txt".toList := by
  obtain ⟨s1, s2, s3⟩ := slices_of_parts p d m y r hp hd hm hy
  unfold renameFileL
  rw [s1, s2, s3]
  have lit : ("FACE_AUTO_RA_NEUTRON_R_".toList ++ "20".toList : List Char)
      = "FACE_AUTO_RA_NEUTRON_R_20".toList := by decide
  simp only [← List.append_assoc]
  rw [lit]

/-- `get_datetimes` on a decomposed name: the date range is assembled from
the same positional slices. -/
theorem getDatetimesL_parts (p d m y r : List Char)
    (hp : p.length = 2) (hd : d.length = 2) (hm : m.length = 2) (hy : y.length = 2) :
    (getDatetimesL (p ++ (d ++ (m ++ (y ++ r))))).1 =
      "20".toList ++ y ++ "-".toList ++ m ++ "-".toList ++ d ++ " 00:00:00".toList ∧
    (getDatetimesL (p ++ (d ++ (m ++ (y ++ r))))).2 =
      "20".toList ++ y ++ "-".toList ++ m ++ "-".toList ++ d ++ " 23:59:59".toList := by
  obtain ⟨s1, s2, s3⟩ := slices_of_parts p d m y r hp hd hm hy
  unfold getDatetimesL
  rw [s1, s2, s3]
  constructor
  · simp only [← List.append_assoc]
  · simp only [← List.append_assoc]

/-- **C5**: the filename codec is deterministic (it is a pure function)
and on the worked example computes the canonical name
`FACE_AUTO_RA_NEUTRON_R_20180515.txt`, the derived name
`FACE_AUTO_RA_NEUTRON_L1_20180515.csv` and the date range
`2018-05-15 00:00:00`–`2018-05-15 23:59:59`; in general, for a name built
of a 2-char prefix and 2-char day/month/year blocks, day, month and year
are the slices at offsets 2, 4 and 6 and the year is prefixed by `20`. -/
theorem codec_worked_example :
    rename_file "FA150518.TXT" = "FACE_AUTO_RA_NEUTRON_R_20180515.txt" ∧
    rename_csv_file (rename_file "FA150518.TXT") = "FACE_AUTO_RA_NEUTRON_L1_20180515.csv" ∧
    get_datetimes "FA150518.TXT" = ("2018-05-15 00:00:00", "2018-05-15 23:59:59") ∧
    (∀ d m y r : List Char, d.length = 2 → m.length = 2 → y.length = 2 →
      renameFileL ('F' :: 'A' :: (d ++ (m ++ (y ++ r)))) =
        "FACE_AUTO_RA_NEUTRON_R_20".toList ++ y ++ m ++ d ++ ".txt".toList) := by
  refine ⟨by decide, by decide, by decide, ?_⟩
  intro d m y r hd hm hy
  exact renameFileL_parts ['F', 'A'] d m y r (by decide) hd hm hy

/-- **C5** witness: the generic clause of `codec_worked_example` applied at
a concrete decomposition. -/
theorem codec_worked_example_witness :
    renameFileL ('F' :: 'A' :: ("15".toList ++ ("05".toList ++ ("18".toList ++ ".TXT".toList)))) =
      "FACE_AUTO_RA_NEUTRON_R_20180515.txt".toList :=
  (codec_worked_example.2.2.2 "15".toList "05".toList "18".toList ".TXT".toList
    (by decide) (by decide) (by decide)).trans (by decide)

/-- **C7** counterexample: the claimed InvalidFormat failure does not
exist in the code.  The spec-modelled codec rejects the wrong-prefix name
`XY150518.TXT` and the too-short name `FA15`, but the script's
`rename_file` and `get_datetimes` succeed on both, producing a plain
string built from whatever the positional slices contain. -/
theorem codec_invalid_format_cex :
    deriveCanonicalNameSpec "XY150518.TXT" = none ∧
    rename_file "XY150518.TXT" = "FACE_AUTO_RA_NEUTRON_R_20180515.txt" ∧
    deriveCanonicalNameSpec "FA15" = none ∧
    rename_file "FA15" = "FACE_AUTO_RA_NEUTRON_R_2015.txt" ∧
    get_datetimes "FA15" = ("20--15 00:00:00", "20--15 23:59:59") := by
  decide

/-- **C7** (amended): `rename_file` and `get_datetimes` never fail: they
are total positional extractors with no prefix or length validation (and
no calendar validation) — on every name decomposed into a 2-char prefix
(any prefix, not just `FA`) and 2-char day/month/year blocks they succeed
with the positional result; too-short names simply yield truncated slices. -/
theorem codec_total_positional (p d m y r : List Char)
    (hp : p.length = 2) (hd : d.length = 2) (hm : m.length = 2) (hy : y.length = 2) :
    renameFileL (p ++ (d ++ (m ++ (y ++ r)))) =
      "FACE_AUTO_RA_NEUTRON_R_20".toList ++ y ++ m ++ d ++ ".txt".toList ∧
    (getDatetimesL (p ++ (d ++ (m ++ (y ++ r))))).1 =
      "20".toList ++ y ++ "-".toList ++ m ++ "-".toList ++ d ++ " 00:00:00".toList ∧
    (getDatetimesL (p ++ (d ++ (m ++ (y ++ r))))).2 =
      "20".toList ++ y ++ "-".toList ++ m ++ "-".toList ++ d ++ " 23:59:59".toList :=
  ⟨renameFileL_parts p d m y r hp hd hm hy,
   (getDatetimesL_parts p d m y r hp hd hm hy).1,
   (getDatetimesL_parts p d m y r hp hd hm hy).2⟩

/-- **C7** witness: the amended theorem at a wrong-prefix input with
calendar-invalid day 99: the codec still succeeds. -/
theorem codec_total_positional_witness :
    renameFileL ("XY".toList ++ ("99".toList ++ ("77".toList ++ ("55".toList ++ ".TXT".toList)))) =
      "FACE_AUTO_RA_NEUTRON_R_20557799.txt".toList :=
  (codec_total_positional "XY".toList "99".toList "77".toList "55".toList ".TXT".toList
    (by decide) (by decide) (by decide) (by decide)).1.trans (by decide)

/-- Every name matching the spec's FA+DDMMYY+.TXT convention passes the
script's (weaker) candidate test. -/
theorem specConvention_imp_candidate (s : String) (h : specConvention s = true) :
    candidateMatch s = .ok true := by
  unfold specConvention at h
  split at h
  next d1 d2 m1 m2 y1 y2 heq =>
    simp only [Bool.and_eq_true] at h
    obtain ⟨⟨⟨⟨⟨h1, h2⟩, h3⟩, h4⟩, h5⟩, h6⟩ := h
    have hne1 : ¬(d1 = '.') := digit_ne_dot h1
    have hne2 : ¬(d2 = '.') := digit_ne_dot h2
    have hne3 : ¬(m1 = '.') := digit_ne_dot h3
    have hne4 : ¬(m2 = '.') := digit_ne_dot h4
    have hne5 : ¬(y1 = '.') := digit_ne_dot h5
    have hne6 : ¬(y2 = '.') := digit_ne_dot h6
    unfold candidateMatch candidateMatchL
    rw [heq]
    have hFA : ("FA".toList : List Char) = ['F', 'A'] := rfl
    rw [hFA]
    simp +decide [hasPrefixL, splitOnChar, hne1, hne2, hne3, hne4, hne5, hne6]
  next =>
    exact absurd h (by simp)

/-- **C6** counterexample: `FA1.TXT` does not match the FA+DDMMYY+.TXT
convention, yet the script treats it as a candidate: with every external
call succeeding it is staged under a garbage canonical name and uploaded. -/
theorem candidate_looser_than_convention_cex :
    specConvention "FA1.TXT" = false ∧
    candidateMatch "FA1.TXT" = .ok true ∧
    (processFile { convertOk := true, convertedContent := 0, uploadRawOk := true,
                   uploadL1Ok := true, removeDataOk := true, removeRenamedOk := true,
                   removeL1Ok := true }
        { data := [("FA1.TXT", 5)], renamed := [], backups := [] } "FA1.TXT").uploads ≠ [] := by
  decide

/-- **C6** (amended): a file is treated as a candidate exactly when its
name starts with `FA` and the text between the first and the second `.` is
`TXT` (case-sensitively) — a strictly weaker test than the FA+DDMMYY+.TXT
convention, which it is implied by; a non-candidate is never backed up,
staged, converted or uploaded, leaves the filesystem untouched, and only a
warning is logged. -/
theorem candidate_match_amended :
    (∀ s : String, specConvention s = true → candidateMatch s = .ok true) ∧
    (∀ (env : Env) (fs : FS) (f : String), candidateMatch f = .ok false →
      processFile env fs f =
        { fs := fs, uploads := [], counted := false,
          events := [.nonMatchWarn f], abort := none }) := by
  refine ⟨specConvention_imp_candidate, ?_⟩
  intro env fs f h
  unfold processFile
  rw [h]

/-- **C6** witness: the amended theorem at a convention-matching name and
at a non-matching name on a concrete filesystem. -/
theorem candidate_match_amended_witness :
    candidateMatch "FA150518.TXT" = .ok true ∧
    processFile { convertOk := true, convertedContent := 0, uploadRawOk := true,
                  uploadL1Ok := true, removeDataOk := true, removeRenamedOk := true,
                  removeL1Ok := true }
        { data := [("XY150518.TXT", 3)], renamed := [], backups := [] } "XY150518.TXT" =
      { fs := { data := [("XY150518.TXT", 3)], renamed := [], backups := [] },
        uploads := [], counted := false,
        events := [.nonMatchWarn "XY150518.TXT"], abort := none } :=
  ⟨candidate_match_amended.1 "FA150518.TXT" (by decide),
   candidate_match_amended.2 _ _ _ (by decide)⟩

/-- **C9**: a file in `Data` whose name starts with `FA` but contains no
`.` makes the candidate-matching expression `file.split('.')[1]` raise an
unhandled IndexError, aborting the whole run before any remaining file is
processed (no event, upload or filesystem change from the rest of the
listing), rather than being skipped as non-matching. -/
theorem no_dot_index_error_aborts (E : String → Env) (fs : FS) (f : String)
    (rest : List String)
    (hFA : hasPrefixL "FA".toList f.toList = true)
    (hnd : ∀ x ∈ f.toList, x ≠ '.') :
    processFile (E f) fs f =
      { fs := fs, uploads := [], counted := false, events := [],
        abort := some "IndexError" } ∧
    runFiles E fs (f :: rest) =
      { fs := fs, uploads := [], counter := 0, events := [],
        abort := some "IndexError" } := by
  have hcm : candidateMatch f = .error "IndexError" := by
    unfold candidateMatch candidateMatchL
    rw [if_pos hFA, splitOnChar_eq_single hnd]
    rfl
  have hp : processFile (E f) fs f =
      { fs := fs, uploads := [], counted := false, events := [],
        abort := some "IndexError" } := by
    unfold processFile
    rw [hcm]
  refine ⟨hp, ?_⟩
  unfold runFiles
  rw [hp]
  rfl

/-- **C9** witness: the dot-less name `FATXT` aborts a run that still had
the well-formed `FA150518.TXT` queued after it. -/
theorem no_dot_index_error_aborts_witness :
    processFile
        ((fun _ => { convertOk := true, convertedContent := 0, uploadRawOk := true,
                     uploadL1Ok := true, removeDataOk := true, removeRenamedOk := true,
                     removeL1Ok := true } : String → Env) "FATXT")
        { data := [("FATXT", 1), ("FA150518.TXT", 2)], renamed := [], backups := [] }
        "FATXT" =
      { fs := { data := [("FATXT", 1), ("FA150518.TXT", 2)], renamed := [], backups := [] },
        uploads := [], counted := false, events := [], abort := some "IndexError" } ∧
    runFiles
        (fun _ => { convertOk := true, convertedContent := 0, uploadRawOk := true,
                    uploadL1Ok := true, removeDataOk := true, removeRenamedOk := true,
                    removeL1Ok := true })
        { data := [("FATXT", 1), ("FA150518.TXT", 2)], renamed := [], backups := [] }
        ["FATXT", "FA150518.TXT"] =
      { fs := { data := [("FATXT", 1), ("FA150518.TXT", 2)], renamed := [], backups := [] },
        uploads := [], counter := 0, events := [], abort := some "IndexError" } :=
  no_dot_index_error_aborts _ _ "FATXT" ["FA150518.TXT"] (by decide) (by decide)

/-- **C3**: when conversion fails, no upload call is made for that
candidate, the source file in `Data` and the staged raw file in `Renamed`
are retained, the iteration does not raise, and the run continues with the
remaining candidates. -/
theorem conversion_failure_no_upload (E : String → Env) (fs : FS) (f : String)
    (c : Nat) (rest : List String)
    (hm : candidateMatch f = .ok true)
    (hd : getF fs.data f = some c)
    (h1 : getF fs.renamed (rename_file f) = none)
    (h2 : getF fs.renamed (rename_csv_file (rename_file f)) = none)
    (hne : rename_csv_file (rename_file f) ≠ rename_file f)
    (hcv : (E f).convertOk = false) :
    (processFile (E f) fs f).uploads = [] ∧
    (processFile (E f) fs f).abort = none ∧
    (processFile (E f) fs f).counted = false ∧
    getF (processFile (E f) fs f).fs.data f = some c ∧
    getF (processFile (E f) fs f).fs.renamed (rename_file f) = some c ∧
    runFiles E fs (f :: rest) =
      { fs := (runFiles E (processFile (E f) fs f).fs rest).fs,
        uploads := (runFiles E (processFile (E f) fs f).fs rest).uploads,
        counter := (runFiles E (processFile (E f) fs f).fs rest).counter,
        events := (processFile (E f) fs f).events ++
          (runFiles E (processFile (E f) fs f).fs rest).events,
        abort := (runFiles E (processFile (E f) fs f).fs rest).abort } := by
  have h2' : getF (setF fs.renamed (rename_file f) c) (rename_csv_file (rename_file f))
      = none := by
    rw [getF_setF_ne _ _ _ _ hne]
    exact h2
  have hstep : processFile (E f) fs f =
      { fs := { data := fs.data,
                renamed := setF (setF fs.renamed (rename_file f) c)
                  (rename_csv_file (rename_file f)) c,
                backups := setF fs.backups f c },
        uploads := [], counted := false,
        events := [.matchFound f, .backedUp f, .stagedEv f (rename_file f),
                   .convertFailed f],
        abort := none } := by
    simp [processFile, hm, hd, h1, h2', hcv]
  rw [hstep]
  refine ⟨rfl, rfl, rfl, hd, ?_, ?_⟩
  · rw [getF_setF_ne _ _ _ _ (Ne.symm hne), getF_setF_self]
  · conv_lhs => rw [runFiles]
    rw [hstep]
    simp

/-- **C3** witness: a concrete conversion failure on `FA150518.TXT`. -/
theorem conversion_failure_no_upload_witness :
    (processFile ((fun _ => { envAllOk with convertOk := false }) "FA150518.TXT")
        { data := [("FA150518.TXT", 7)], renamed := [], backups := [] }
        "FA150518.TXT").uploads = [] ∧
    getF (processFile ((fun _ => { envAllOk with convertOk := false }) "FA150518.TXT")
        { data := [("FA150518.TXT", 7)], renamed := [], backups := [] }
        "FA150518.TXT").fs.renamed (rename_file "FA150518.TXT") = some 7 :=
  ⟨(conversion_failure_no_upload (fun _ => { envAllOk with convertOk := false })
      { data := [("FA150518.TXT", 7)], renamed := [], backups := [] } "FA150518.TXT" 7 []
      (by decide) (by decide) (by decide) (by decide) (by decide) (by decide)).1,
   (conversion_failure_no_upload (fun _ => { envAllOk with convertOk := false })
      { data := [("FA150518.TXT", 7)], renamed := [], backups := [] } "FA150518.TXT" 7 []
      (by decide) (by decide) (by decide) (by decide) (by decide) (by decide)).2.2.2.2.1⟩

/-- **C1**: if the canonical-named copy or the derived `.csv` of a
candidate is still present in the `Renamed` directory, processing that
candidate performs no upload and does not raise: the existence check turns
the operation into a logged skip (an AlreadyStaged or AlreadyConverted
warning), so a second run over the same `Data` entry produces no duplicate
upload. -/
theorem existence_guard_skips_upload (env : Env) (fs : FS) (f : String) (c : Nat)
    (hm : candidateMatch f = .ok true)
    (hd : getF fs.data f = some c)
    (hguard : (getF fs.renamed (rename_file f)).isSome = true ∨
      (getF fs.renamed (rename_csv_file (rename_file f))).isSome = true) :
    (processFile env fs f).uploads = [] ∧
    (processFile env fs f).abort = none ∧
    (Event.alreadyInRenamed (rename_file f) ∈ (processFile env fs f).events ∨
     Event.l1AlreadyExists (rename_csv_file (rename_file f)) ∈ (processFile env fs f).events) := by
  by_cases h1 : (getF fs.renamed (rename_file f)).isSome = true
  · have hstep : processFile env fs f =
        { fs := { fs with backups := setF fs.backups f c },
          uploads := [], counted := false,
          events := [.matchFound f, .backedUp f, .alreadyInRenamed (rename_file f)],
          abort := none } := by
      simp [processFile, hm, hd, h1]
    rw [hstep]
    exact ⟨rfl, rfl, Or.inl (by simp)⟩
  · have hl1 : (getF fs.renamed (rename_csv_file (rename_file f))).isSome = true := by
      rcases hguard with h | h
      · exact absurd h h1
      · exact h
    have h1' : getF fs.renamed (rename_file f) = none := by
      cases hx : getF fs.renamed (rename_file f) with
      | none => rfl
      | some v => rw [hx] at h1; exact absurd rfl h1
    have h2 : (getF (setF fs.renamed (rename_file f) c)
        (rename_csv_file (rename_file f))).isSome = true :=
      getF_setF_isSome _ _ _ _ hl1
    have hstep : processFile env fs f =
        { fs := { data := fs.data, renamed := setF fs.renamed (rename_file f) c,
                  backups := setF fs.backups f c },
          uploads := [], counted := false,
          events := [.matchFound f, .backedUp f, .stagedEv f (rename_file f),
                     .l1AlreadyExists (rename_csv_file (rename_file f))],
          abort := none } := by
      simp [processFile, hm, hd, h1', h2]
    rw [hstep]
    exact ⟨rfl, rfl, Or.inr (by simp)⟩

/-- **C1** witness: with the canonical copy still staged, a second pass
over `FA150518.TXT` uploads nothing and logs a skip. -/
theorem existence_guard_skips_upload_witness :
    (processFile envAllOk
        { data := [("FA150518.TXT", 7)],
          renamed := [("FACE_AUTO_RA_NEUTRON_R_20180515.txt", 7)], backups := [] }
        "FA150518.TXT").uploads = [] ∧
    (processFile envAllOk
        { data := [("FA150518.TXT", 7)],
          renamed := [("FACE_AUTO_RA_NEUTRON_R_20180515.txt", 7)], backups := [] }
        "FA150518.TXT").abort = none ∧
    (Event.alreadyInRenamed (rename_file "FA150518.TXT") ∈ (processFile envAllOk
        { data := [("FA150518.TXT", 7)],
          renamed := [("FACE_AUTO_RA_NEUTRON_R_20180515.txt", 7)], backups := [] }
        "FA150518.TXT").events ∨
     Event.l1AlreadyExists (rename_csv_file (rename_file "FA150518.TXT")) ∈ (processFile envAllOk
        { data := [("FA150518.TXT", 7)],
          renamed := [("FACE_AUTO_RA_NEUTRON_R_20180515.txt", 7)], backups := [] }
        "FA150518.TXT").events) :=
  existence_guard_skips_upload envAllOk
    { data := [("FA150518.TXT", 7)],
      renamed := [("FACE_AUTO_RA_NEUTRON_R_20180515.txt", 7)], backups := [] }
    "FA150518.TXT" 7 (by decide) (by decide) (Or.inl (by decide))

/-- **C2**: for a successfully converted candidate the staged raw artifact
is uploaded first and the derived artifact second; when the raw upload
raises, the derived upload is never attempted, the candidate is not
counted, and none of the three local files (source, staged raw, derived)
is deleted. -/
theorem upload_pair_order_and_failure (env : Env) (fs : FS) (f : String) (c : Nat)
    (hm : candidateMatch f = .ok true)
    (hd : getF fs.data f = some c)
    (h1 : getF fs.renamed (rename_file f) = none)
    (h2 : getF fs.renamed (rename_csv_file (rename_file f)) = none)
    (hne : rename_csv_file (rename_file f) ≠ rename_file f)
    (hcv : env.convertOk = true) :
    (processFile env fs f).uploads =
      (if env.uploadRawOk then [rename_file f, rename_csv_file (rename_file f)]
       else [rename_file f]) ∧
    (env.uploadRawOk = false →
      (processFile env fs f).counted = false ∧
      (processFile env fs f).abort = none ∧
      getF (processFile env fs f).fs.data f = some c ∧
      getF (processFile env fs f).fs.renamed (rename_file f) = some c ∧
      getF (processFile env fs f).fs.renamed (rename_csv_file (rename_file f))
        = some env.convertedContent) := by
  have h2' : getF (setF fs.renamed (rename_file f) c) (rename_csv_file (rename_file f))
      = none := by
    rw [getF_setF_ne _ _ _ _ hne]
    exact h2
  have hne' : rename_file f ≠ rename_csv_file (rename_file f) := Ne.symm hne
  cases hur : env.uploadRawOk with
  | false =>
    have hstep : processFile env fs f =
        { fs := { data := fs.data,
                  renamed := setF (setF (setF fs.renamed (rename_file f) c)
                    (rename_csv_file (rename_file f)) c)
                    (rename_csv_file (rename_file f)) env.convertedContent,
                  backups := setF fs.backups f c },
          uploads := [rename_file f], counted := false,
          events := [.matchFound f, .backedUp f, .stagedEv f (rename_file f),
                     .convertedEv f, .uploadFailedEv f],
          abort := none } := by
      simp [processFile, hm, hd, h1, h2', hcv, hur]
    rw [hstep]
    refine ⟨by simp, fun _ => ⟨rfl, rfl, hd, ?_, ?_⟩⟩
    · rw [getF_setF_ne _ _ _ _ hne', getF_setF_ne _ _ _ _ hne', getF_setF_self]
    · rw [getF_setF_self]
  | true =>
    cases hul : env.uploadL1Ok <;> cases hrd : env.removeDataOk <;>
      cases hrr : env.removeRenamedOk <;> cases hrl : env.removeL1Ok <;>
      simp [processFile, hm, hd, h1, h2', hcv, hur, hul, hrd, hrr, hrl]

/-- **C2** witness: a raw-upload failure on `FA150518.TXT` leaves all three
local files in place and never attempts the derived upload. -/
theorem upload_pair_order_and_failure_witness :
    (processFile { envAllOk with uploadRawOk := false }
        { data := [("FA150518.TXT", 7)], renamed := [], backups := [] }
        "FA150518.TXT").uploads =
      (if ({ envAllOk with uploadRawOk := false } : Env).uploadRawOk
       then [rename_file "FA150518.TXT", rename_csv_file (rename_file "FA150518.TXT")]
       else [rename_file "FA150518.TXT"]) ∧
    getF (processFile { envAllOk with uploadRawOk := false }
        { data := [("FA150518.TXT", 7)], renamed := [], backups := [] }
        "FA150518.TXT").fs.data "FA150518.TXT" = some 7 :=
  ⟨(upload_pair_order_and_failure { envAllOk with uploadRawOk := false }
      { data := [("FA150518.TXT", 7)], renamed := [], backups := [] } "FA150518.TXT" 7
      (by decide) (by decide) (by decide) (by decide) (by decide) (by decide)).1,
   ((upload_pair_order_and_failure { envAllOk with uploadRawOk := false }
      { data := [("FA150518.TXT", 7)], renamed := [], backups := [] } "FA150518.TXT" 7
      (by decide) (by decide) (by decide) (by decide) (by decide) (by decide)).2
      (by decide)).2.2.1⟩

/-- **C8**: a candidate file is always backed up, byte-identically and
under its original name, before any staging: whatever the environment and
whatever guard fires later, the `Backups` entry holds the source content
and the first two events are the match and the backup. -/
theorem backup_unconditional (env : Env) (fs : FS) (f : String) (c : Nat)
    (hm : candidateMatch f = .ok true)
    (hd : getF fs.data f = some c) :
    getF (processFile env fs f).fs.backups f = some c ∧
    (processFile env fs f).events.take 2 = [Event.matchFound f, Event.backedUp f] := by
  simp only [processFile, hm, hd]
  repeat' split
  all_goals simp [getF_setF_self]

/-- **C8** witness: the backup is made even when the candidate is then
skipped as already staged. -/
theorem backup_unconditional_witness :
    getF (processFile envAllOk
        { data := [("FA150518.TXT", 7)],
          renamed := [("FACE_AUTO_RA_NEUTRON_R_20180515.txt", 3)], backups := [] }
        "FA150518.TXT").fs.backups "FA150518.TXT" = some 7 ∧
    (processFile envAllOk
        { data := [("FA150518.TXT", 7)],
          renamed := [("FACE_AUTO_RA_NEUTRON_R_20180515.txt", 3)], backups := [] }
        "FA150518.TXT").events.take 2 =
      [Event.matchFound "FA150518.TXT", Event.backedUp "FA150518.TXT"] :=
  backup_unconditional envAllOk
    { data := [("FA150518.TXT", 7)],
      renamed := [("FACE_AUTO_RA_NEUTRON_R_20180515.txt", 3)], backups := [] }
    "FA150518.TXT" 7 (by decide) (by decide)

/-- **C10**: the script copies the staged raw bytes to the derived `.csv`
path before invoking the converter, so on conversion failure the raw bytes
remain at the derived path (nothing removes them); and whenever a later
run reaches the derived-path existence guard (staged raw absent, derived
present) the candidate is skipped as already converted: no upload and no
conversion happen for it. -/
theorem preconversion_copy_persists (env : Env) (fs : FS) (f : String) (c : Nat)
    (hm : candidateMatch f = .ok true)
    (hd : getF fs.data f = some c)
    (h1 : getF fs.renamed (rename_file f) = none)
    (h2 : getF fs.renamed (rename_csv_file (rename_file f)) = none)
    (hne : rename_csv_file (rename_file f) ≠ rename_file f)
    (hcv : env.convertOk = false) :
    getF (processFile env fs f).fs.renamed (rename_csv_file (rename_file f)) = some c ∧
    getF (processFile env fs f).fs.renamed (rename_file f) = some c ∧
    (processFile env fs f).uploads = [] ∧
    (processFile env fs f).abort = none ∧
    (∀ (env2 : Env) (fs2 : FS) (c2 : Nat),
      getF fs2.data f = some c2 →
      getF fs2.renamed (rename_file f) = none →
      (getF fs2.renamed (rename_csv_file (rename_file f))).isSome = true →
      (processFile env2 fs2 f).uploads = [] ∧
      Event.l1AlreadyExists (rename_csv_file (rename_file f)) ∈ (processFile env2 fs2 f).events ∧
      Event.convertedEv f ∉ (processFile env2 fs2 f).events) := by
  have h2' : getF (setF fs.renamed (rename_file f) c) (rename_csv_file (rename_file f))
      = none := by
    rw [getF_setF_ne _ _ _ _ hne]
    exact h2
  have hstep : processFile env fs f =
      { fs := { data := fs.data,
                renamed := setF (setF fs.renamed (rename_file f) c)
                  (rename_csv_file (rename_file f)) c,
                backups := setF fs.backups f c },
        uploads := [], counted := false,
        events := [.matchFound f, .backedUp f, .stagedEv f (rename_file f),
                   .convertFailed f],
        abort := none } := by
    simp [processFile, hm, hd, h1, h2', hcv]
  rw [hstep]
  refine ⟨getF_setF_self _ _ _, ?_, rfl, rfl, ?_⟩
  · rw [getF_setF_ne _ _ _ _ (Ne.symm hne), getF_setF_self]
  · intro env2 fs2 c2 hd2 h12 hl2
    have h22 : (getF (setF fs2.renamed (rename_file f) c2)
        (rename_csv_file (rename_file f))).isSome = true :=
      getF_setF_isSome _ _ _ _ hl2
    have hstep2 : processFile env2 fs2 f =
        { fs := { data := fs2.data, renamed := setF fs2.renamed (rename_file f) c2,
                  backups := setF fs2.backups f c2 },
          uploads := [], counted := false,
          events := [.matchFound f, .backedUp f, .stagedEv f (rename_file f),
                     .l1AlreadyExists (rename_csv_file (rename_file f))],
          abort := none } := by
      simp [processFile, hm, hd2, h12, h22]
    rw [hstep2]
    exact ⟨rfl, by simp, by simp⟩

/-- **C10** witness: a conversion failure on `FA150518.TXT` leaves the raw
bytes at the derived path; afterwards, with the staged raw removed by
hand, the next run skips the candidate as already converted. -/
theorem preconversion_copy_persists_witness :
    getF (processFile { envAllOk with convertOk := false }
        { data := [("FA150518.TXT", 7)], renamed := [], backups := [] }
        "FA150518.TXT").fs.renamed (rename_csv_file (rename_file "FA150518.TXT"))
      = some 7 ∧
    (processFile { envAllOk with convertOk := false }
        { data := [("FA150518.TXT", 7)], renamed := [], backups := [] }
        "FA150518.TXT").uploads = [] :=
  ⟨(preconversion_copy_persists { envAllOk with convertOk := false }
      { data := [("FA150518.TXT", 7)], renamed := [], backups := [] } "FA150518.TXT" 7
      (by decide) (by decide) (by decide) (by decide) (by decide) (by decide)).1,
   (preconversion_copy_persists { envAllOk with convertOk := false }
      { data := [("FA150518.TXT", 7)], renamed := [], backups := [] } "FA150518.TXT" 7
      (by decide) (by decide) (by decide) (by decide) (by decide) (by decide)).2.2.1⟩

/-- **C4** counterexample: cleanup deletions are not guarded.  With both
uploads succeeded and the first `os.remove` failing, the iteration aborts
with an unhandled OSError — the run does not continue, the remaining two
deletions are never attempted (staged raw and derived file are still
present), and the counter is not incremented. -/
theorem cleanup_failure_aborts_cex :
    (processFile { envAllOk with removeDataOk := false }
        { data := [("FA150518.TXT", 7)], renamed := [], backups := [] }
        "FA150518.TXT").abort = some "OSError" ∧
    getF (processFile { envAllOk with removeDataOk := false }
        { data := [("FA150518.TXT", 7)], renamed := [], backups := [] }
        "FA150518.TXT").fs.renamed "FACE_AUTO_RA_NEUTRON_R_20180515.txt" = some 7 ∧
    getF (processFile { envAllOk with removeDataOk := false }
        { data := [("FA150518.TXT", 7)], renamed := [], backups := [] }
        "FA150518.TXT").fs.renamed "FACE_AUTO_RA_NEUTRON_L1_20180515.csv" = some 9 ∧
    (processFile { envAllOk with removeDataOk := false }
        { data := [("FA150518.TXT", 7)], renamed := [], backups := [] }
        "FA150518.TXT").counted = false := by
  decide

/-- **C4** (amended): after both uploads succeed, the script attempts the
deletion of source, staged raw and derived file in that order, and when
all three succeed the candidate is counted; but the deletions are
unguarded — if the first raises, the exception is unhandled, the run
aborts, and the remaining deletions are not attempted.  The
already-confirmed uploads are not rolled back in either case (both upload
calls stand). -/
theorem cleanup_all_or_abort (env : Env) (fs : FS) (f : String) (c : Nat)
    (hm : candidateMatch f = .ok true)
    (hd : getF fs.data f = some c)
    (h1 : getF fs.renamed (rename_file f) = none)
    (h2 : getF fs.renamed (rename_csv_file (rename_file f)) = none)
    (hne : rename_csv_file (rename_file f) ≠ rename_file f)
    (hcv : env.convertOk = true)
    (hur : env.uploadRawOk = true)
    (hul : env.uploadL1Ok = true) :
    (env.removeDataOk = true → env.removeRenamedOk = true → env.removeL1Ok = true →
      getF (processFile env fs f).fs.data f = none ∧
      getF (processFile env fs f).fs.renamed (rename_file f) = none ∧
      getF (processFile env fs f).fs.renamed (rename_csv_file (rename_file f)) = none ∧
      (processFile env fs f).counted = true ∧
      (processFile env fs f).abort = none) ∧
    (env.removeDataOk = false →
      (processFile env fs f).abort = some "OSError" ∧
      (processFile env fs f).counted = false ∧
      getF (processFile env fs f).fs.data f = some c ∧
      getF (processFile env fs f).fs.renamed (rename_file f) = some c ∧
      getF (processFile env fs f).fs.renamed (rename_csv_file (rename_file f))
        = some env.convertedContent) ∧
    (processFile env fs f).uploads = [rename_file f, rename_csv_file (rename_file f)] := by
  have h2' : getF (setF fs.renamed (rename_file f) c) (rename_csv_file (rename_file f))
      = none := by
    rw [getF_setF_ne _ _ _ _ hne]
    exact h2
  have hne' : rename_file f ≠ rename_csv_file (rename_file f) := Ne.symm hne
  cases hrd : env.removeDataOk <;> cases hrr : env.removeRenamedOk <;>
    cases hrl : env.removeL1Ok <;>
    simp [processFile, hm, hd, h1, h2', hcv, hur, hul, hrd, hrr, hrl,
      getF_setF_self, getF_setF_ne, getF_delF_self, getF_delF_ne, hne, hne']

/-- **C4** witness: the amended theorem at a fully successful run (all
three deletions succeed, candidate counted) on concrete data. -/
theorem cleanup_all_or_abort_witness :
    getF (processFile envAllOk
        { data := [("FA150518.TXT", 7)], renamed := [], backups := [] }
        "FA150518.TXT").fs.data "FA150518.TXT" = none ∧
    (processFile envAllOk
        { data := [("FA150518.TXT", 7)], renamed := [], backups := [] }
        "FA150518.TXT").counted = true ∧
    (processFile envAllOk
        { data := [("FA150518.TXT", 7)], renamed := [], backups := [] }
        "FA150518.TXT").uploads =
      [rename_file "FA150518.TXT", rename_csv_file (rename_file "FA150518.TXT")] :=
  ⟨((cleanup_all_or_abort envAllOk
      { data := [("FA150518.TXT", 7)], renamed := [], backups := [] } "FA150518.TXT" 7
      (by decide) (by decide) (by decide) (by decide) (by decide) (by decide)
      (by decide) (by decide)).1 (by decide) (by decide) (by decide)).1,
   ((cleanup_all_or_abort envAllOk
      { data := [("FA150518.TXT", 7)], renamed := [], backups := [] } "FA150518.TXT" 7
      (by decide) (by decide) (by decide) (by decide) (by decide) (by decide)
      (by decide) (by decide)).1 (by decide) (by decide) (by decide)).2.2.2.1,
   (cleanup_all_or_abort envAllOk
      { data := [("FA150518.TXT", 7)], renamed := [], backups := [] } "FA150518.TXT" 7
      (by decide) (by decide) (by decide) (by decide) (by decide) (by decide)
      (by decide) (by decide)).2.2⟩

end UploadNP
